import Mathlib

/-!
Shallow embedding of `XrInputSourceFacade`
(src/packages/troika-xr/src/webxr-wip/facade/XrInputSourceFacade.js).

The facade polls an XR gamepad's buttons and axes each frame
(`_trackGamepadState`), bridges native session select/squeeze events
(`_onSessionEvent`, with subscription management in `afterUpdate`),
resolves per-frame poses (`_onXrFrame`), and reacts to scene-level ray
events (`_onSceneRayEvent`).

JS arrays holding press timestamps are modelled as `List (Option Nat)`:
`none` stands for both `null` and `undefined` (the two are
interchangeable in every use the source makes of the entries: `!!x`
truthiness, `x && ...` guards, and arithmetic that is only reached when
the entry is truthy).  Timestamps (`Date.now()`) are `Nat` milliseconds.
Axis values are modelled as exact rationals.
-/

namespace TroikaXr

/-- Read `l[i]` the way JS does: `undefined` (out of range) and a stored
`null` both come back as `none`. -/
def jsGet (l : List (Option Nat)) (i : Nat) : Option Nat :=
  (l[i]?).join

/-- JS assignment `l[i] = v`: writes in place when `i` is in range,
otherwise extends the array, padding the gap with `undefined`. -/
def jsSet (l : List (Option Nat)) (i : Nat) (v : Option Nat) : List (Option Nat) :=
  if i < l.length then l.set i v
  else l ++ List.replicate (i - l.length) none ++ [v]

/-- JS assignment `l.length = n`: truncates, or grows padding with
`undefined`. -/
def jsSetLength (l : List (Option Nat)) (n : Nat) : List (Option Nat) :=
  if n ≤ l.length then l.take n
  else l ++ List.replicate (n - l.length) none

/-- JS truthiness of a stored press-timestamp entry: `null`/`undefined`
are falsy, a number is truthy unless it is `0`. -/
def truthy : Option Nat → Bool
  | none => false
  | some t => t != 0

/-- One entry of `gamepad.buttons`. -/
structure GamepadButton where
  pressed : Bool
deriving DecidableEq

/-- The parts of a `Gamepad` object the facade reads. -/
structure Gamepad where
  buttons : List GamepadButton
  axes : List ℚ
  mapping : String
deriving DecidableEq

/-- Action types carried by `rayPointerAction` notifications. -/
inductive ActionType where
  | mousedown
  | mouseup
  | click
deriving DecidableEq

/-- A `rayPointerAction` payload, as notified to the world.  Button
actions carry `{type, button}`; wheel actions carry
`{deltaX, deltaY, deltaMode}` (the ray field is the shared per-frame ray
and is omitted from the model). -/
inductive RayAction where
  | buttonAction (type : ActionType) (button : Nat)
  | wheelAction (deltaX deltaY : ℚ) (deltaMode : Nat)
deriving DecidableEq

/-- Modelled from the spec: the logical button ids `BUTTON_TRIGGER` and
`BUTTON_SQUEEZE` are imported from `xrStandardGamepadMapping`, a module
of this repository that is not under src/.  The spec's data model lists
the logical buttons TRIGGER and SQUEEZE; in the xr-standard gamepad
mapping the trigger is button index 0, which is also what makes the
gamepad-polling path (which emits raw button indices) line up with the
`RAY_TARGET_EVENTS` table keyed by these constants. -/
def BUTTON_TRIGGER : Nat := 0

/-- Modelled from the spec: the squeeze button of the xr-standard
mapping, button index 1.  See `BUTTON_TRIGGER`. -/
def BUTTON_SQUEEZE : Nat := 1

/-- `CLICK_MAX_DUR` from the source: the click recognition window in
milliseconds. -/
def CLICK_MAX_DUR : Nat := 300

/-- `buttons[i].pressed`, with an out-of-range read giving `false`
(the loop never reads out of range). -/
def pressedAt (buttons : List GamepadButton) (i : Nat) : Bool :=
  match buttons[i]? with
  | some b => b.pressed
  | none => false

/-- The `notifyWorld('rayPointerAction', ...)` calls made by one
iteration of the button loop of `_trackGamepadState` (source lines
172-191): on a state transition, when pointing is enabled, a
`mousedown`/`mouseup` for the button index, followed by a `click` when
the stored press timestamp is truthy, the button was released, and the
press happened at most `CLICK_MAX_DUR` ms ago. -/
def transitionEmits (isPointing : Bool) (now : Nat) (prev : Option Nat)
    (pressed : Bool) (i : Nat) : List RayAction :=
  if pressed != truthy prev then
    if isPointing then
      [RayAction.buttonAction (if pressed then ActionType.mousedown else ActionType.mouseup) i]
        ++ (if truthy prev && !pressed && decide (now - prev.getD 0 ≤ CLICK_MAX_DUR)
            then [RayAction.buttonAction ActionType.click i] else [])
    else []
  else []

/-- One iteration of the button loop of `_trackGamepadState`: diff
`buttons[i].pressed` against the truthiness of `pressedTimes[i]`, emit
the transition actions, store `now`/`null` on a transition, and assign
`pressedTimes.length = buttons.length` (the source performs this length
assignment inside the loop body, on every iteration). -/
def trackButtonStep (isPointing : Bool) (now : Nat) (buttons : List GamepadButton)
    (i : Nat) (st : List (Option Nat) × List RayAction) :
    List (Option Nat) × List RayAction :=
  let prev := jsGet st.1 i
  let pressed := pressedAt buttons i
  let pt1 :=
    if pressed != truthy prev then jsSet st.1 i (if pressed then some now else none)
    else st.1
  (jsSetLength pt1 buttons.length, st.2 ++ transitionEmits isPointing now prev pressed i)

/-- The button loop of `_trackGamepadState`, iterating over the given
button indices in order. -/
def trackButtonsLoop (isPointing : Bool) (now : Nat) (buttons : List GamepadButton) :
    List Nat → List (Option Nat) × List RayAction → List (Option Nat) × List RayAction
  | [], st => st
  | i :: rest, st =>
    trackButtonsLoop isPointing now buttons rest (trackButtonStep isPointing now buttons i st)

/-- The wheel actions contributed by the axis pair starting at index `i`
(source lines 195-211): `deltaX = (axes[i] || 0) * 10`,
`deltaY = (axes[i+1] || 0) * 10`, emitted when pointing is enabled and
`Math.hypot(deltaX, deltaY) > 0.1`; since both sides are nonnegative the
hypot comparison is embedded as the equivalent
`deltaX² + deltaY² > (1/10)²`. -/
def wheelPairEmits (isPointing : Bool) (axes : List ℚ) (i : Nat) : List RayAction :=
  let deltaX := ((axes[i]?).getD 0) * 10
  let deltaY := ((axes[i + 1]?).getD 0) * 10
  if deltaX * deltaX + deltaY * deltaY > (1 / 10) * (1 / 10) then
    if isPointing then [RayAction.wheelAction deltaX deltaY 0] else []
  else []

/-- The axis loop of `_trackGamepadState`, iterating over the given pair
start indices in order and appending emissions to the action stream. -/
def trackAxesLoop (isPointing : Bool) (axes : List ℚ) :
    List Nat → List RayAction → List RayAction
  | [], out => out
  | i :: rest, out => trackAxesLoop isPointing axes rest (out ++ wheelPairEmits isPointing axes i)

/-- The indices visited by `for (let i = 0; i < n; i += 2)`. -/
def evenIndicesUpTo (n : Nat) : List Nat :=
  (List.range n).filter (fun i => i % 2 == 0)

/-- `_trackGamepadState` (source lines 166-212): runs the button loop
over indices `0 .. buttons.length - 1`, then the axis loop over even
indices, returning the updated `_buttonPresses` array and the ordered
stream of `rayPointerAction` notifications. -/
def _trackGamepadState (isPointing : Bool) (now : Nat) (gp : Gamepad)
    (pressedTimes : List (Option Nat)) : List (Option Nat) × List RayAction :=
  let r := trackButtonsLoop isPointing now gp.buttons
    (List.range gp.buttons.length) (pressedTimes, [])
  (r.1, trackAxesLoop isPointing gp.axes (evenIndicesUpTo gp.axes.length) r.2)

/-- `_isXrStandardGamepad` (source lines 161-164): the input source has
a gamepad and its mapping is `'xr-standard'`. -/
def _isXrStandardGamepad : Option Gamepad → Bool
  | some gp => gp.mapping = "xr-standard"
  | none => false

/-- The JS regex test `/pat$/.test s`, for a literal pattern. -/
def regexTestEnd (pat s : String) : Bool :=
  pat.data.isSuffixOf s.data

/-- The JS regex test `/^pat/.test s`, for a literal pattern. -/
def regexTestStart (pat s : String) : Bool :=
  pat.data.isPrefixOf s.data

/-- `_onSessionEvent` (source lines 214-223): redispatches a session
`select`/`squeeze` event as a single `rayPointerAction`, mapping the
event name's suffix to the action type and its prefix to the logical
button. -/
def _onSessionEvent (eventType : String) : RayAction :=
  RayAction.buttonAction
    (if regexTestEnd "start" eventType then ActionType.mousedown
     else if regexTestEnd "end" eventType then ActionType.mouseup
     else ActionType.click)
    (if regexTestStart "squeeze" eventType then BUTTON_SQUEEZE else BUTTON_TRIGGER)

/-- The session-event subscription state of one facade: the session the
facade saw on its last `afterUpdate` (`_lastXrSession`), and the list of
session ids that currently have `_onSessionEvent` listeners attached.
Session objects are identified by `Nat` ids; `none` stands for a
null/undefined session. -/
structure SubState where
  lastXrSession : Option Nat
  subs : List Nat
deriving DecidableEq

/-- `toggleEvents(session, false, ...)`: removing listeners from a null
target is a no-op. -/
def removeSessionListeners (subs : List Nat) : Option Nat → List Nat
  | some s => subs.filter (fun x => x != s)
  | none => subs

/-- `toggleEvents(session, true, ...)`: adding listeners to a null
target is a no-op. -/
def addSessionListeners (subs : List Nat) : Option Nat → List Nat
  | some s => subs ++ [s]
  | none => subs

/-- The session-listener management of `afterUpdate` (source lines
88-96): when the session changed, record it, unsubscribe the previous
session's listeners, and subscribe the new session only when the device
does not have an xr-standard gamepad. -/
def afterUpdateSessionEvents (isStd : Bool) (xrSession : Option Nat)
    (st : SubState) : SubState :=
  if xrSession ≠ st.lastXrSession then
    let subs1 := removeSessionListeners st.subs st.lastXrSession
    let subs2 := if !isStd then addSessionListeners subs1 xrSession else subs1
    { lastXrSession := xrSession, subs := subs2 }
  else st

/-- The facade's initial subscription state: no `_lastXrSession`, no
listeners attached. -/
def initSubState : SubState :=
  { lastXrSession := none, subs := [] }

/-- An abstract pose (identity only; the facade never inspects pose
contents except to copy them into the ray). -/
structure Pose where
  id : Nat
deriving DecidableEq

/-- The per-frame state fields of the facade that `_onXrFrame` and
`_onSceneRayEvent` read and write: `targetRayPose`, `gripPose` and
`rayIntersection` (intersections identified by `Nat` ids). -/
structure DeviceState where
  targetRayPose : Option Pose
  gripPose : Option Pose
  rayIntersection : Option Nat
deriving DecidableEq

/-- The inputs `_onXrFrame` reads from the frame and camera: the
camera's `offsetReferenceSpace` (or null), the result
`xrFrame.getPose(targetRaySpace, refSpace)` would return, whether the
input source has a `gripSpace`, and the result
`xrFrame.getPose(gripSpace, refSpace)` would return. -/
structure XrFrameInput where
  offsetReferenceSpace : Option Nat
  targetRayPoseResult : Option Pose
  gripSpace : Bool
  gripPoseResult : Option Pose
deriving DecidableEq

/-- The state update of `_onXrFrame` (source lines 135-159): when an
offset reference space exists, store the target-ray pose query result
and the grip pose query result (null when there is no grip space);
otherwise leave all fields untouched.  `rayIntersection` is never
written here.  (The `rayPointerMotion` notification and the gamepad
polling the method also performs are modelled separately by
`_trackGamepadState`.) -/
def _onXrFrameState (st : DeviceState) (inp : XrFrameInput) : DeviceState :=
  match inp.offsetReferenceSpace with
  | some _ =>
    { st with
      targetRayPose := inp.targetRayPoseResult
      gripPose := if inp.gripSpace then inp.gripPoseResult else none }
  | none => st

/-- A scene-level ray event as received by `_onSceneRayEvent`:
`sourceIsSelf` models `e.nativeEvent.eventSource === this`,
`targetIsScene` models `e.target === e.currentTarget`. -/
structure SceneRayEvent where
  sourceIsSelf : Bool
  eventType : String
  button : Nat
  targetIsScene : Bool
  intersection : Option Nat
deriving DecidableEq

/-- An `Event` dispatched to the raycast target by `_onSceneRayEvent`. -/
structure DispatchedEvent where
  name : String
  bubbles : Bool
  eventSourceIsSelf : Bool
deriving DecidableEq

/-- The observable outcome of one `_onSceneRayEvent` call: the
resulting `rayIntersection`, the haptic pulse requested (value,
duration) if an actuator is present, and the events dispatched to the
event's target. -/
structure SceneRayResult where
  rayIntersection : Option Nat
  haptic : Option (ℚ × Nat)
  dispatched : List DispatchedEvent
deriving DecidableEq

/-- `RAY_TARGET_EVENTS` (source lines 279-290): the xr-specific event
name for a (logical button, action type) pair, `none` when the pair has
no entry (the JS lookup `RAY_TARGET_EVENTS[e.button] &&
RAY_TARGET_EVENTS[e.button][e.type]` short-circuits to undefined). -/
def RAY_TARGET_EVENTS (button : Nat) (eventType : String) : Option String :=
  if button = BUTTON_TRIGGER then
    if eventType = "mousedown" then some "xrselectstart"
    else if eventType = "mouseup" then some "xrselectend"
    else if eventType = "click" then some "xrselect"
    else none
  else if button = BUTTON_SQUEEZE then
    if eventType = "mousedown" then some "xrsqueezestart"
    else if eventType = "mouseup" then some "xrsqueezeend"
    else if eventType = "click" then some "xrsqueeze"
    else none
  else none

/-- `_onSceneRayEvent` (source lines 225-253): for events whose ray
source is this facade, copy the intersection into local state, request a
haptic pulse (`HAPTICS.click = {value 1, duration 20}` on click,
`HAPTICS.mouseover = {value 0.3, duration 10}` on mouseover of a
non-scene target), and dispatch the mapped xr event, bubbling, tagged
with this facade as `eventSource`, to the event's target.  Events from
any other source are ignored. -/
def _onSceneRayEvent (prevIntersection : Option Nat) (e : SceneRayEvent) :
    SceneRayResult :=
  if e.sourceIsSelf then
    { rayIntersection := e.intersection
      haptic :=
        if e.eventType = "click" then some (1, 20)
        else if e.eventType = "mouseover" ∧ e.targetIsScene = false then some (3 / 10, 10)
        else none
      dispatched :=
        match RAY_TARGET_EVENTS e.button e.eventType with
        | some n => [⟨n, true, true⟩]
        | none => [] }
  else
    { rayIntersection := prevIntersection, haptic := none, dispatched := [] }

/-- The press-timestamp entry for one button after a poll: on a state
transition the entry becomes `now` (press) or `null` (release); with no
transition it keeps its previous value. -/
def trackedEntry (now : Nat) (prev : Option Nat) (pressed : Bool) : Option Nat :=
  if pressed != truthy prev then (if pressed then some now else none) else prev

/-- Concatenation of the emission lists of each index, in iteration
order. -/
def collectEmits (f : Nat → List RayAction) : List Nat → List RayAction
  | [] => []
  | i :: rest => f i ++ collectEmits f rest

/-- The press-timestamp array a poll leaves behind when the button
array is nonempty: entry `i` is `trackedEntry` of the previous entry
and the current pressed flag. -/
def newEntries (now : Nat) (buttons : List GamepadButton) (pt : List (Option Nat)) :
    List (Option Nat) :=
  (List.range buttons.length).map fun i => trackedEntry now (jsGet pt i) (pressedAt buttons i)

/-- The actions the button loop emits for index `i`, phrased against the
pre-poll press-timestamp array. -/
def buttonEmitsAt (isPointing : Bool) (now : Nat) (pt : List (Option Nat))
    (buttons : List GamepadButton) (i : Nat) : List RayAction :=
  transitionEmits isPointing now (jsGet pt i) (pressedAt buttons i) i

/-! ### Lemmas about the JS array model -/

theorem getElem?_eq_some_jsGet {l : List (Option Nat)} {i : Nat} (h : i < l.length) :
    l[i]? = some (jsGet l i) := by
  unfold jsGet
  rw [List.getElem?_eq_getElem h]
  rfl

theorem jsGet_eq_none_of_le {l : List (Option Nat)} {i : Nat} (h : l.length ≤ i) :
    jsGet l i = none := by
  unfold jsGet
  rw [List.getElem?_eq_none h]
  rfl

theorem jsSetLength_length (l : List (Option Nat)) (n : Nat) :
    (jsSetLength l n).length = n := by
  unfold jsSetLength
  split
  · simp only [List.length_take]
    omega
  · simp only [List.length_append, List.length_replicate]
    omega

theorem jsSetLength_getElem? {l : List (Option Nat)} {n j : Nat} (h : j < n) :
    (jsSetLength l n)[j]? = some (jsGet l j) := by
  unfold jsSetLength
  split
  · rename_i hle
    rw [List.getElem?_take, if_pos h]
    exact getElem?_eq_some_jsGet (by omega)
  · rename_i hgt
    rw [List.getElem?_append]
    split
    · rename_i hlt
      exact getElem?_eq_some_jsGet hlt
    · rename_i hge
      rw [List.getElem?_replicate, if_pos (by omega), jsGet_eq_none_of_le (by omega)]

theorem jsGet_jsSet (l : List (Option Nat)) (i : Nat) (v : Option Nat) (j : Nat) :
    jsGet (jsSet l i v) j = if j = i then v else jsGet l j := by
  unfold jsSet
  split
  · rename_i hlt
    unfold jsGet
    rw [List.getElem?_set]
    by_cases hij : i = j
    · subst hij
      simp [hlt]
    · rw [if_neg hij, if_neg (fun h => hij h.symm)]
  · rename_i hge
    have hL : (l ++ List.replicate (i - l.length) none).length = i := by
      simp only [List.length_append, List.length_replicate]
      omega
    unfold jsGet
    rw [List.getElem?_append]
    by_cases hj : j < l.length
    · rw [if_pos (show j < (l ++ List.replicate (i - l.length) (none : Option Nat)).length by omega),
        List.getElem?_append, if_pos hj, if_neg (show ¬ j = i by omega)]
    · by_cases hji : j = i
      · rw [if_pos hji, hji,
          if_neg (show ¬ i < (l ++ List.replicate (i - l.length) (none : Option Nat)).length by omega),
          hL, Nat.sub_self]
        rfl
      · rw [if_neg hji, List.getElem?_eq_none (show l.length ≤ j by omega)]
        by_cases hjlt : j < i
        · rw [if_pos (show j < (l ++ List.replicate (i - l.length) (none : Option Nat)).length by omega),
            List.getElem?_append, if_neg hj, List.getElem?_replicate,
            if_pos (show j - l.length < i - l.length by omega)]
          rfl
        · rw [if_neg (show ¬ j < (l ++ List.replicate (i - l.length) (none : Option Nat)).length by omega),
            hL,
            List.getElem?_eq_none (show ([v] : List (Option Nat)).length ≤ j - i by
              simp only [List.length_cons, List.length_nil]
              omega)]

/-! ### Lemmas about emission collection -/

theorem mem_collectEmits {f : Nat → List RayAction} {a : RayAction} :
    ∀ {l : List Nat}, a ∈ collectEmits f l ↔ ∃ i ∈ l, a ∈ f i := by
  intro l
  induction l with
  | nil => simp [collectEmits]
  | cons i rest ih => simp [collectEmits, ih]

theorem count_collectEmits (f : Nat → List RayAction) (a : RayAction) :
    ∀ (l : List Nat), (collectEmits f l).count a = (l.map fun i => (f i).count a).sum := by
  intro l
  induction l with
  | nil => simp [collectEmits]
  | cons i rest ih => simp [collectEmits, List.count_append, ih]

theorem sum_map_range_eq_single {g : Nat → Nat} :
    ∀ (n i : Nat), i < n → (∀ j, j < n → j ≠ i → g j = 0) →
      ((List.range n).map g).sum = g i := by
  intro n
  induction n with
  | zero => omega
  | succ m ih =>
    intro i hi h0
    rw [List.range_succ]
    by_cases him : i = m
    · subst him
      have hrest : ∀ j ∈ List.range i, g j = 0 := by
        intro j hj
        rw [List.mem_range] at hj
        exact h0 j (by omega) (by omega)
      simp only [List.map_append, List.sum_append, List.map_cons, List.map_nil,
        List.sum_cons, List.sum_nil]
      have : ((List.range i).map g).sum = 0 := by
        apply List.sum_eq_zero
        intro x hx
        rw [List.mem_map] at hx
        obtain ⟨j, hj, rfl⟩ := hx
        exact hrest j hj
      omega
    · have := ih i (by omega) (fun j hj hne => h0 j (by omega) hne)
      simp only [List.map_append, List.sum_append, List.map_cons, List.map_nil,
        List.sum_cons, List.sum_nil]
      rw [this, h0 m (by omega) (fun h => him h.symm)]
      omega

/-! ### Decomposition of the polling loops -/

theorem trackAxesLoop_eq (isPointing : Bool) (axes : List ℚ) :
    ∀ (l : List Nat) (out : List RayAction),
      trackAxesLoop isPointing axes l out
        = out ++ collectEmits (wheelPairEmits isPointing axes) l := by
  intro l
  induction l with
  | nil =>
    intro out
    simp [trackAxesLoop, collectEmits]
  | cons i rest ih =>
    intro out
    simp only [trackAxesLoop]
    rw [ih]
    simp [collectEmits]

theorem newEntries_length (now : Nat) (buttons : List GamepadButton)
    (pt : List (Option Nat)) : (newEntries now buttons pt).length = buttons.length := by
  simp [newEntries]

theorem newEntries_getElem? (now : Nat) (buttons : List GamepadButton)
    (pt : List (Option Nat)) {j : Nat} (hj : j < buttons.length) :
    (newEntries now buttons pt)[j]?
      = some (trackedEntry now (jsGet pt j) (pressedAt buttons j)) := by
  unfold newEntries
  rw [List.getElem?_map, List.getElem?_range hj]
  rfl

theorem trackButtonsLoop_invStep (isPointing : Bool) (now : Nat)
    (buttons : List GamepadButton) (pt : List (Option Nat)) :
    ∀ (m k : Nat) (cur : List (Option Nat)) (out : List RayAction),
      k + m = buttons.length →
      ((k = 0 ∧ cur = pt) ∨
        (0 < k ∧ cur.length = buttons.length ∧ ∀ j, j < buttons.length →
          cur[j]? = some (if j < k then trackedEntry now (jsGet pt j) (pressedAt buttons j)
                          else jsGet pt j))) →
      trackButtonsLoop isPointing now buttons (List.range' k m) (cur, out) =
        ((if buttons.length = 0 then pt else newEntries now buttons pt),
          out ++ collectEmits (fun i => buttonEmitsAt isPointing now pt buttons i)
            (List.range' k m)) := by
  intro m
  induction m with
  | zero =>
    intro k cur out hk hinv
    show (cur, out) = _
    rcases hinv with ⟨hk0, hcur⟩ | ⟨hkpos, hlen, hget⟩
    · subst hcur
      have hb : buttons.length = 0 := by omega
      simp [hb, collectEmits]
    · have hb : buttons.length ≠ 0 := by omega
      rw [if_neg hb]
      have hcur : cur = newEntries now buttons pt := by
        apply List.ext_getElem?
        intro j
        by_cases hj : j < buttons.length
        · rw [hget j hj, if_pos (by omega), newEntries_getElem? now buttons pt hj]
        · rw [List.getElem?_eq_none (by omega),
            List.getElem?_eq_none (by rw [newEntries_length]; omega)]
      rw [hcur]
      simp [collectEmits]
  | succ m ih =>
    intro k cur out hk hinv
    have hklt : k < buttons.length := by omega
    have hcurget : ∀ j, j < buttons.length →
        jsGet cur j = (if j < k then trackedEntry now (jsGet pt j) (pressedAt buttons j)
                       else jsGet pt j) := by
      intro j hj
      rcases hinv with ⟨hk0, hcur⟩ | ⟨hkpos, hlen, hget⟩
      · subst hcur
        rw [if_neg (by omega)]
      · unfold jsGet
        rw [hget j hj]
        rfl
    have hreadk : jsGet cur k = jsGet pt k := by
      rw [hcurget k hklt, if_neg (by omega)]
    have hstep : trackButtonStep isPointing now buttons k (cur, out)
        = (jsSetLength (if pressedAt buttons k != truthy (jsGet cur k)
              then jsSet cur k (if pressedAt buttons k then some now else none) else cur)
            buttons.length,
          out ++ transitionEmits isPointing now (jsGet cur k) (pressedAt buttons k) k) := rfl
    rw [hreadk] at hstep
    have hinv' : ∀ j, j < buttons.length →
        (jsSetLength (if pressedAt buttons k != truthy (jsGet pt k)
            then jsSet cur k (if pressedAt buttons k then some now else none) else cur)
          buttons.length)[j]?
          = some (if j < k + 1 then trackedEntry now (jsGet pt j) (pressedAt buttons j)
                  else jsGet pt j) := by
      intro j hj
      rw [jsSetLength_getElem? hj]
      congr 1
      by_cases htr : (pressedAt buttons k != truthy (jsGet pt k)) = true
      · rw [if_pos htr, jsGet_jsSet]
        by_cases hjk : j = k
        · subst hjk
          rw [if_pos rfl, if_pos (show j < j + 1 by omega)]
          unfold trackedEntry
          rw [if_pos htr]
        · rw [if_neg hjk, hcurget j hj]
          by_cases hjlt : j < k
          · rw [if_pos hjlt, if_pos (show j < k + 1 by omega)]
          · rw [if_neg hjlt, if_neg (show ¬ j < k + 1 by omega)]
      · rw [if_neg htr, hcurget j hj]
        by_cases hjk : j = k
        · subst hjk
          rw [if_neg (show ¬ j < j by omega), if_pos (show j < j + 1 by omega)]
          unfold trackedEntry
          rw [if_neg htr]
        · by_cases hjlt : j < k
          · rw [if_pos hjlt, if_pos (show j < k + 1 by omega)]
          · rw [if_neg hjlt, if_neg (show ¬ j < k + 1 by omega)]
    rw [List.range'_succ]
    simp only [trackButtonsLoop]
    rw [hstep]
    rw [ih (k + 1) _ _ (by omega)
      (Or.inr ⟨by omega, jsSetLength_length _ _, hinv'⟩)]
    simp [collectEmits, buttonEmitsAt, List.append_assoc]

theorem trackGamepadState_decomp (isPointing : Bool) (now : Nat) (gp : Gamepad)
    (pt : List (Option Nat)) :
    _trackGamepadState isPointing now gp pt =
      ((if gp.buttons.length = 0 then pt else newEntries now gp.buttons pt),
        collectEmits (fun i => buttonEmitsAt isPointing now pt gp.buttons i)
          (List.range gp.buttons.length)
          ++ collectEmits (wheelPairEmits isPointing gp.axes)
            (evenIndicesUpTo gp.axes.length)) := by
  unfold _trackGamepadState
  rw [List.range_eq_range',
    trackButtonsLoop_invStep isPointing now gp.buttons pt gp.buttons.length 0 pt []
      (by omega) (Or.inl ⟨rfl, rfl⟩)]
  show ((if gp.buttons.length = 0 then pt else newEntries now gp.buttons pt),
      trackAxesLoop isPointing gp.axes (evenIndicesUpTo gp.axes.length)
        ([] ++ collectEmits (fun i => buttonEmitsAt isPointing now pt gp.buttons i)
          (List.range' 0 gp.buttons.length))) = _
  rw [trackAxesLoop_eq]
  simp [List.range_eq_range']

/-! ### Shapes of the per-index emission lists -/

theorem mem_transitionEmits {isPointing : Bool} {now : Nat} {prev : Option Nat}
    {pressed : Bool} {i : Nat} {a : RayAction} :
    a ∈ transitionEmits isPointing now prev pressed i →
      ∃ ty, a = RayAction.buttonAction ty i := by
  unfold transitionEmits
  split
  · split
    · intro h
      simp only [List.mem_append, List.mem_singleton] at h
      rcases h with h | h
      · exact ⟨_, h⟩
      · split at h
        · simp only [List.mem_singleton] at h
          exact ⟨_, h⟩
        · simp at h
    · intro h
      simp at h
  · intro h
    simp at h

theorem mem_wheelPairEmits {isPointing : Bool} {axes : List ℚ} {i : Nat} {a : RayAction} :
    a ∈ wheelPairEmits isPointing axes i →
      a = RayAction.wheelAction ((axes[i]?).getD 0 * 10) ((axes[i + 1]?).getD 0 * 10) 0 := by
  simp only [wheelPairEmits]
  split
  · split
    · intro h
      simp only [List.mem_singleton] at h
      exact h
    · intro h
      simp at h
  · intro h
    simp at h

theorem transitionEmits_no_transition {isPointing : Bool} {now : Nat} {prev : Option Nat}
    {pressed : Bool} {i : Nat} (h : pressed = truthy prev) :
    transitionEmits isPointing now prev pressed i = [] := by
  unfold transitionEmits
  rw [h]
  simp

theorem transitionEmits_not_pointing (now : Nat) (prev : Option Nat)
    (pressed : Bool) (i : Nat) : transitionEmits false now prev pressed i = [] := by
  unfold transitionEmits
  split <;> simp

theorem wheelPairEmits_not_pointing (axes : List ℚ) (i : Nat) :
    wheelPairEmits false axes i = [] := by
  simp only [wheelPairEmits]
  split <;> simp

theorem transitionEmits_release_click {now t0 : Nat} {i : Nat} (ht0 : t0 ≠ 0)
    (hwin : now - t0 ≤ CLICK_MAX_DUR) :
    transitionEmits true now (some t0) false i
      = [RayAction.buttonAction ActionType.mouseup i,
         RayAction.buttonAction ActionType.click i] := by
  unfold transitionEmits truthy
  simp [ht0, hwin]

theorem transitionEmits_release_noclick {now t0 : Nat} {i : Nat} (ht0 : t0 ≠ 0)
    (hwin : ¬ now - t0 ≤ CLICK_MAX_DUR) :
    transitionEmits true now (some t0) false i
      = [RayAction.buttonAction ActionType.mouseup i] := by
  unfold transitionEmits truthy
  simp [ht0, hwin]

theorem click_not_mem_transitionEmits_pressed {isPointing : Bool} {now : Nat}
    {prev : Option Nat} {i j : Nat} :
    RayAction.buttonAction ActionType.click i ∉ transitionEmits isPointing now prev true j := by
  unfold transitionEmits
  split
  · split <;> simp
  · simp

theorem count_transitionEmits_mousedown (now : Nat) (prev : Option Nat)
    (pressed : Bool) (i : Nat) :
    (transitionEmits true now prev pressed i).count
        (RayAction.buttonAction ActionType.mousedown i)
      = if pressed = true ∧ truthy prev = false then 1 else 0 := by
  unfold transitionEmits
  cases hp : pressed <;> cases ht : truthy prev <;> simp [ht] <;> split <;> simp

theorem count_transitionEmits_mouseup (now : Nat) (prev : Option Nat)
    (pressed : Bool) (i : Nat) :
    (transitionEmits true now prev pressed i).count
        (RayAction.buttonAction ActionType.mouseup i)
      = if pressed = false ∧ truthy prev = true then 1 else 0 := by
  unfold transitionEmits
  cases hp : pressed <;> cases ht : truthy prev <;> simp [ht] <;> split <;> simp

/-! ### Transfer to the whole poll -/

theorem collectEmits_eq_nil {f : Nat → List RayAction} :
    ∀ {l : List Nat}, (∀ i ∈ l, f i = []) → collectEmits f l = [] := by
  intro l
  induction l with
  | nil => intro _; rfl
  | cons i rest ih =>
    intro h
    show f i ++ collectEmits f rest = []
    rw [h i (by simp), ih (fun j hj => h j (by simp [hj]))]
    rfl

theorem trackGamepadState_not_pointing (now : Nat) (gp : Gamepad)
    (pt : List (Option Nat)) : (_trackGamepadState false now gp pt).2 = [] := by
  rw [trackGamepadState_decomp]
  show collectEmits _ _ ++ collectEmits _ _ = []
  have h1 : collectEmits (fun i => buttonEmitsAt false now pt gp.buttons i)
      (List.range gp.buttons.length) = [] :=
    collectEmits_eq_nil (fun i _ => transitionEmits_not_pointing now (jsGet pt i)
      (pressedAt gp.buttons i) i)
  have h2 : collectEmits (wheelPairEmits false gp.axes)
      (evenIndicesUpTo gp.axes.length) = [] :=
    collectEmits_eq_nil (fun i _ => wheelPairEmits_not_pointing gp.axes i)
  rw [h1, h2]
  rfl

theorem count_trackGamepadState_button (isPointing : Bool) (now : Nat) (gp : Gamepad)
    (pt : List (Option Nat)) (ty : ActionType) {i : Nat} (hi : i < gp.buttons.length) :
    ((_trackGamepadState isPointing now gp pt).2).count (RayAction.buttonAction ty i)
      = (transitionEmits isPointing now (jsGet pt i) (pressedAt gp.buttons i) i).count
          (RayAction.buttonAction ty i) := by
  rw [trackGamepadState_decomp]
  show (collectEmits _ _ ++ collectEmits _ _).count _ = _
  rw [List.count_append]
  have haxes : (collectEmits (wheelPairEmits isPointing gp.axes)
      (evenIndicesUpTo gp.axes.length)).count (RayAction.buttonAction ty i) = 0 := by
    rw [List.count_eq_zero]
    intro hmem
    rw [mem_collectEmits] at hmem
    obtain ⟨j, _, hmem⟩ := hmem
    have := mem_wheelPairEmits hmem
    simp at this
  rw [haxes, Nat.add_zero, count_collectEmits]
  exact sum_map_range_eq_single gp.buttons.length i hi (fun j _ hne => by
    rw [List.count_eq_zero]
    intro hmem
    obtain ⟨ty', hty⟩ := mem_transitionEmits hmem
    rw [RayAction.buttonAction.injEq] at hty
    exact hne hty.2.symm)

theorem mem_trackGamepadState_buttonAction {isPointing : Bool} {now : Nat} {gp : Gamepad}
    {pt : List (Option Nat)} {ty : ActionType} {i : Nat} :
    RayAction.buttonAction ty i ∈ (_trackGamepadState isPointing now gp pt).2 ↔
      i < gp.buttons.length ∧
        RayAction.buttonAction ty i ∈ transitionEmits isPointing now (jsGet pt i)
          (pressedAt gp.buttons i) i := by
  rw [trackGamepadState_decomp]
  show _ ∈ collectEmits _ _ ++ collectEmits _ _ ↔ _
  rw [List.mem_append]
  constructor
  · rintro (h | h)
    · rw [mem_collectEmits] at h
      obtain ⟨j, hj, hmem⟩ := h
      rw [List.mem_range] at hj
      obtain ⟨ty', hty⟩ := mem_transitionEmits hmem
      rw [RayAction.buttonAction.injEq] at hty
      obtain ⟨hty1, hty2⟩ := hty
      subst hty1
      subst hty2
      exact ⟨hj, hmem⟩
    · exfalso
      rw [mem_collectEmits] at h
      obtain ⟨j, _, hmem⟩ := h
      have := mem_wheelPairEmits hmem
      simp at this
  · rintro ⟨hi, hmem⟩
    left
    rw [mem_collectEmits]
    exact ⟨i, by rw [List.mem_range]; exact hi, hmem⟩

theorem jsGet_trackGamepadState (isPointing : Bool) (now : Nat) (gp : Gamepad)
    (pt : List (Option Nat)) {i : Nat} (hi : i < gp.buttons.length) :
    jsGet (_trackGamepadState isPointing now gp pt).1 i
      = trackedEntry now (jsGet pt i) (pressedAt gp.buttons i) := by
  rw [trackGamepadState_decomp]
  show jsGet (if gp.buttons.length = 0 then pt else newEntries now gp.buttons pt) i = _
  rw [if_neg (by omega)]
  unfold jsGet
  rw [newEntries_getElem? now gp.buttons pt hi]
  rfl

theorem length_trackGamepadState (isPointing : Bool) (now : Nat) (gp : Gamepad)
    (pt : List (Option Nat)) (h : gp.buttons.length ≠ 0) :
    ((_trackGamepadState isPointing now gp pt).1).length = gp.buttons.length := by
  rw [trackGamepadState_decomp]
  show (if gp.buttons.length = 0 then pt else newEntries now gp.buttons pt).length = _
  rw [if_neg h, newEntries_length]

theorem trackGamepadState_empty_buttons (isPointing : Bool) (now : Nat) (gp : Gamepad)
    (pt : List (Option Nat)) (h : gp.buttons.length = 0) :
    (_trackGamepadState isPointing now gp pt).1 = pt := by
  rw [trackGamepadState_decomp]
  show (if gp.buttons.length = 0 then pt else newEntries now gp.buttons pt) = pt
  rw [if_pos h]

/-! ### Claim theorems -/

/-- C1 (amended): for a button `i` whose stored press timestamp is `t0`
(the press was observed at poll time `t0 ≠ 0`), a release observed at the
poll at time `t1` emits, when pointing is enabled, a `mouseup`, plus a
`click` exactly when `t1 - t0 ≤ 300` ms; past the window no click is
emitted; while the button remains held no click is ever emitted for it;
and the stored press timestamp is cleared on release.  The amendment: the
claim as frozen asserts the click/mouseup emission unconditionally, but
the source only notifies when `isPointing` is true. -/
theorem C1_click_window (gp : Gamepad) (pt : List (Option Nat)) (i t0 t1 : Nat)
    (hprev : jsGet pt i = some t0) (ht0 : t0 ≠ 0) (hi : i < gp.buttons.length) :
    (pressedAt gp.buttons i = false →
      RayAction.buttonAction ActionType.mouseup i ∈ (_trackGamepadState true t1 gp pt).2
      ∧ (t1 - t0 ≤ CLICK_MAX_DUR →
          RayAction.buttonAction ActionType.click i ∈ (_trackGamepadState true t1 gp pt).2)
      ∧ (¬ t1 - t0 ≤ CLICK_MAX_DUR →
          RayAction.buttonAction ActionType.click i ∉ (_trackGamepadState true t1 gp pt).2)
      ∧ jsGet (_trackGamepadState true t1 gp pt).1 i = none)
    ∧ (pressedAt gp.buttons i = true →
        ∀ (isPointing : Bool) (now : Nat),
          RayAction.buttonAction ActionType.click i
            ∉ (_trackGamepadState isPointing now gp pt).2) := by
  constructor
  · intro hrel
    refine ⟨?_, ?_, ?_, ?_⟩
    · rw [mem_trackGamepadState_buttonAction]
      refine ⟨hi, ?_⟩
      rw [hprev, hrel]
      by_cases hw : t1 - t0 ≤ CLICK_MAX_DUR
      · rw [transitionEmits_release_click ht0 hw]
        simp
      · rw [transitionEmits_release_noclick ht0 hw]
        simp
    · intro hw
      rw [mem_trackGamepadState_buttonAction]
      refine ⟨hi, ?_⟩
      rw [hprev, hrel, transitionEmits_release_click ht0 hw]
      simp
    · intro hw hmem
      rw [mem_trackGamepadState_buttonAction] at hmem
      obtain ⟨_, hmem⟩ := hmem
      rw [hprev, hrel, transitionEmits_release_noclick ht0 hw] at hmem
      simp at hmem
    · rw [jsGet_trackGamepadState true t1 gp pt hi, hprev, hrel]
      unfold trackedEntry truthy
      simp [ht0]
  · intro hpress isPointing now hmem
    rw [mem_trackGamepadState_buttonAction] at hmem
    obtain ⟨_, hmem⟩ := hmem
    rw [hpress] at hmem
    exact click_not_mem_transitionEmits_pressed hmem

/-- C1 counterexample: the claim as frozen is false on the code.  A press
is observed at poll time 100 (the timestamp is stored), the matching
release is observed at poll time 200 (the timestamp is cleared, so the
true→false transition was processed), and 200 - 100 ≤ 300, yet with
`isPointing = false` at the release poll the poll emits no action at all:
neither the promised `click` nor the `mouseup`. -/
theorem C1_counterexample :
    (_trackGamepadState true 100 ⟨[⟨true⟩], [], "xr-standard"⟩ []).1 = [some 100]
    ∧ (_trackGamepadState false 200 ⟨[⟨false⟩], [], "xr-standard"⟩ [some 100]).1 = [none]
    ∧ (_trackGamepadState false 200 ⟨[⟨false⟩], [], "xr-standard"⟩ [some 100]).2 = [] := by
  refine ⟨?_, ?_, ?_⟩ <;> decide

/-- C1 witness: at a concrete release poll within the click window the
amended theorem yields the `mouseup` and `click` emissions and the
cleared timestamp. -/
theorem C1_witness :
    RayAction.buttonAction ActionType.mouseup 0
      ∈ (_trackGamepadState true 200 ⟨[⟨false⟩], [], "xr-standard"⟩ [some 100]).2
    ∧ RayAction.buttonAction ActionType.click 0
      ∈ (_trackGamepadState true 200 ⟨[⟨false⟩], [], "xr-standard"⟩ [some 100]).2
    ∧ jsGet (_trackGamepadState true 200 ⟨[⟨false⟩], [], "xr-standard"⟩ [some 100]).1 0
      = none := by
  have h := (C1_click_window ⟨[⟨false⟩], [], "xr-standard"⟩ [some 100] 0 100 200
    rfl (by decide) (by decide)).1 rfl
  exact ⟨h.1, h.2.1 (by decide), h.2.2.2⟩

/-- C2 (amended): in a poll with pointing enabled, button `i` gets exactly
one `mousedown` when its pressed flag transitions false→true against the
tracker's recorded state, exactly one `mouseup` on the true→false
transition, and no action of any type when the state is unchanged; with
pointing disabled no button action is emitted even on a transition.  The
amendment: the claim as frozen asserts the emissions for every poll, but
the source only notifies when `isPointing` is true. -/
theorem C2_transition_actions (now : Nat) (gp : Gamepad) (pt : List (Option Nat))
    (i : Nat) (hi : i < gp.buttons.length) :
    (((_trackGamepadState true now gp pt).2).count
        (RayAction.buttonAction ActionType.mousedown i)
      = if pressedAt gp.buttons i = true ∧ truthy (jsGet pt i) = false then 1 else 0)
    ∧ (((_trackGamepadState true now gp pt).2).count
        (RayAction.buttonAction ActionType.mouseup i)
      = if pressedAt gp.buttons i = false ∧ truthy (jsGet pt i) = true then 1 else 0)
    ∧ (pressedAt gp.buttons i = truthy (jsGet pt i) →
        ∀ (isPointing : Bool) (ty : ActionType),
          ((_trackGamepadState isPointing now gp pt).2).count
            (RayAction.buttonAction ty i) = 0)
    ∧ (∀ ty : ActionType,
        ((_trackGamepadState false now gp pt).2).count (RayAction.buttonAction ty i) = 0) := by
  refine ⟨?_, ?_, ?_, ?_⟩
  · rw [count_trackGamepadState_button true now gp pt ActionType.mousedown hi,
      count_transitionEmits_mousedown]
  · rw [count_trackGamepadState_button true now gp pt ActionType.mouseup hi,
      count_transitionEmits_mouseup]
  · intro h isPointing ty
    rw [count_trackGamepadState_button isPointing now gp pt ty hi,
      transitionEmits_no_transition h, List.count_nil]
  · intro ty
    rw [trackGamepadState_not_pointing, List.count_nil]

/-- C2 counterexample: the claim as frozen is false on the code.  With
`isPointing = false`, a false→true transition of button 0 (recorded state
not pressed, current state pressed) emits no `mousedown` at all: the poll
emits nothing. -/
theorem C2_counterexample :
    pressedAt [({ pressed := true } : GamepadButton)] 0 = true
    ∧ truthy (jsGet [] 0) = false
    ∧ (_trackGamepadState false 100 ⟨[⟨true⟩], [], "xr-standard"⟩ []).2 = [] := by
  refine ⟨rfl, rfl, ?_⟩
  decide

/-- C2 witness: a concrete press transition with pointing enabled emits
exactly one `mousedown`. -/
theorem C2_witness :
    ((_trackGamepadState true 100 ⟨[⟨true⟩], [], "xr-standard"⟩ []).2).count
      (RayAction.buttonAction ActionType.mousedown 0) = 1 := by
  have h := (C2_transition_actions 100 ⟨[⟨true⟩], [], "xr-standard"⟩ [] 0 (by decide)).1
  have hc : pressedAt (⟨[⟨true⟩], [], "xr-standard"⟩ : Gamepad).buttons 0 = true
      ∧ truthy (jsGet [] 0) = false := by decide
  rw [if_pos hc] at h
  exact h

/-- C10: the per-button press timestamp is written on every tracker
transition regardless of `isPointing` (first conjunct: the final entry is
`trackedEntry`, which stores `now` on press and clears on release, for
any `isPointing`); consequently a press observed while pointing is
disabled followed within the click window by a release while pointing is
enabled emits both `mouseup` and `click`, although the press poll emitted
no `mousedown` (indeed nothing). -/
theorem C10_press_tracking_regardless :
    (∀ (isPointing : Bool) (now : Nat) (gp : Gamepad) (pt : List (Option Nat)) (i : Nat),
        i < gp.buttons.length →
        jsGet (_trackGamepadState isPointing now gp pt).1 i
          = trackedEntry now (jsGet pt i) (pressedAt gp.buttons i))
    ∧ (∀ (gp1 gp2 : Gamepad) (pt : List (Option Nat)) (i t0 t1 : Nat),
        0 < t0 → i < gp1.buttons.length → i < gp2.buttons.length →
        truthy (jsGet pt i) = false →
        pressedAt gp1.buttons i = true →
        pressedAt gp2.buttons i = false →
        t1 - t0 ≤ CLICK_MAX_DUR →
        jsGet (_trackGamepadState false t0 gp1 pt).1 i = some t0
        ∧ (_trackGamepadState false t0 gp1 pt).2 = []
        ∧ RayAction.buttonAction ActionType.mouseup i
            ∈ (_trackGamepadState true t1 gp2 ((_trackGamepadState false t0 gp1 pt).1)).2
        ∧ RayAction.buttonAction ActionType.click i
            ∈ (_trackGamepadState true t1 gp2 ((_trackGamepadState false t0 gp1 pt).1)).2) := by
  constructor
  · intro isPointing now gp pt i hi
    exact jsGet_trackGamepadState isPointing now gp pt hi
  · intro gp1 gp2 pt i t0 t1 ht0 hi1 hi2 hprev hp1 hp2 hwin
    have hrec : jsGet (_trackGamepadState false t0 gp1 pt).1 i = some t0 := by
      rw [jsGet_trackGamepadState false t0 gp1 pt hi1, hp1]
      unfold trackedEntry
      rw [hprev]
      simp
    refine ⟨hrec, trackGamepadState_not_pointing t0 gp1 pt, ?_, ?_⟩
    · rw [mem_trackGamepadState_buttonAction]
      refine ⟨hi2, ?_⟩
      rw [hrec, hp2, transitionEmits_release_click (by omega) hwin]
      simp
    · rw [mem_trackGamepadState_buttonAction]
      refine ⟨hi2, ?_⟩
      rw [hrec, hp2, transitionEmits_release_click (by omega) hwin]
      simp

/-- C10 witness: the concrete two-poll scenario — press at time 100 with
pointing disabled, release at time 200 with pointing enabled — records
then clears the timestamp and emits `mouseup` and `click` with no
`mousedown` ever emitted. -/
theorem C10_witness :
    jsGet (_trackGamepadState false 100 ⟨[⟨true⟩], [], "xr-standard"⟩ []).1 0 = some 100
    ∧ (_trackGamepadState false 100 ⟨[⟨true⟩], [], "xr-standard"⟩ []).2 = []
    ∧ RayAction.buttonAction ActionType.mouseup 0
        ∈ (_trackGamepadState true 200 ⟨[⟨false⟩], [], "xr-standard"⟩
            ((_trackGamepadState false 100 ⟨[⟨true⟩], [], "xr-standard"⟩ []).1)).2
    ∧ RayAction.buttonAction ActionType.click 0
        ∈ (_trackGamepadState true 200 ⟨[⟨false⟩], [], "xr-standard"⟩
            ((_trackGamepadState false 100 ⟨[⟨true⟩], [], "xr-standard"⟩ []).1)).2 :=
  C10_press_tracking_regardless.2 ⟨[⟨true⟩], [], "xr-standard"⟩
    ⟨[⟨false⟩], [], "xr-standard"⟩ [] 0 100 200 (by decide) (by decide) (by decide)
    (by decide) (by decide) (by decide) (by decide)

/-- C4 (amended): the poll's action stream decomposes into the button
emissions followed by one (possibly empty) wheel contribution per axis
pair; a pair whose scaled deltas have squared magnitude at most
`(1/10)²` (equivalently, `Math.hypot` magnitude at most 0.1) contributes
no wheel action for any pointing state, a pair whose squared magnitude
exceeds `(1/10)²` contributes exactly one wheel action carrying
`deltaX = axes[i]·10`, `deltaY = axes[i+1]·10` (out-of-range axes read
as 0) and pixel delta-mode 0 — provided pointing is enabled; with
pointing disabled the pair contributes nothing.  The amendment: the
claim as frozen asserts the above-deadzone emission unconditionally, but
the source only notifies when `isPointing` is true. -/
theorem C4_axis_deadzone :
    (∀ (isPointing : Bool) (now : Nat) (gp : Gamepad) (pt : List (Option Nat)),
        (_trackGamepadState isPointing now gp pt).2
          = collectEmits (fun i => buttonEmitsAt isPointing now pt gp.buttons i)
              (List.range gp.buttons.length)
            ++ collectEmits (wheelPairEmits isPointing gp.axes)
              (evenIndicesUpTo gp.axes.length))
    ∧ (∀ (axes : List ℚ) (i : Nat),
        (((axes[i]?).getD 0 * 10) * ((axes[i]?).getD 0 * 10)
            + ((axes[i + 1]?).getD 0 * 10) * ((axes[i + 1]?).getD 0 * 10)
            ≤ (1 / 10) * (1 / 10) →
          ∀ isPointing : Bool, wheelPairEmits isPointing axes i = [])
        ∧ ((1 / 10) * (1 / 10)
            < ((axes[i]?).getD 0 * 10) * ((axes[i]?).getD 0 * 10)
              + ((axes[i + 1]?).getD 0 * 10) * ((axes[i + 1]?).getD 0 * 10) →
          wheelPairEmits true axes i
            = [RayAction.wheelAction ((axes[i]?).getD 0 * 10) ((axes[i + 1]?).getD 0 * 10) 0])
        ∧ wheelPairEmits false axes i = []) := by
  constructor
  · intro isPointing now gp pt
    exact congrArg Prod.snd (trackGamepadState_decomp isPointing now gp pt)
  · intro axes i
    refine ⟨?_, ?_, wheelPairEmits_not_pointing axes i⟩
    · intro h isPointing
      simp only [wheelPairEmits]
      rw [if_neg (not_lt.mpr h)]
    · intro h
      simp only [wheelPairEmits]
      rw [if_pos h]
      simp

/-- C4 counterexample: the claim as frozen is false on the code.  The
axis pair `(1, 0)` scales to deltas `(10, 0)` whose magnitude exceeds the
0.1 deadzone, so the claim promises exactly one wheel action, yet with
`isPointing = false` the poll emits nothing. -/
theorem C4_counterexample :
    (1 / 10 : ℚ) * (1 / 10)
      < ((([1, 0] : List ℚ)[0]?).getD 0 * 10) * ((([1, 0] : List ℚ)[0]?).getD 0 * 10)
        + ((([1, 0] : List ℚ)[1]?).getD 0 * 10) * ((([1, 0] : List ℚ)[1]?).getD 0 * 10)
    ∧ (_trackGamepadState false 100 ⟨[], [1, 0], "xr-standard"⟩ []).2 = [] := by
  constructor
  · norm_num
  · exact trackGamepadState_not_pointing 100 ⟨[], [1, 0], "xr-standard"⟩ []

/-- C4 witness: the concrete above-deadzone pair `(1, 0)` with pointing
enabled contributes exactly the wheel action with deltas `(10, 0)` and
pixel delta-mode. -/
theorem C4_witness :
    wheelPairEmits true [(1 : ℚ), 0] 0 = [RayAction.wheelAction 10 0 0] := by
  have h := (C4_axis_deadzone.2 [(1 : ℚ), 0] 0).2.1 (by norm_num)
  simpa using h

/-- C6 (amended): after a poll whose current button array is nonempty the
stored press-timestamp array has exactly the current button count; after
a poll whose button array is empty the stored array is left untouched
(the source's `pressedTimes.length = buttons.length` assignment sits
inside the button loop, which does not run).  The amendment: the claim
as frozen asserts the exact-length property for every button array
including the empty one. -/
theorem C6_tracked_length (isPointing : Bool) (now : Nat) (gp : Gamepad)
    (pt : List (Option Nat)) :
    (gp.buttons.length ≠ 0 →
      ((_trackGamepadState isPointing now gp pt).1).length = gp.buttons.length)
    ∧ (gp.buttons.length = 0 → (_trackGamepadState isPointing now gp pt).1 = pt) := by
  constructor
  · intro h
    exact length_trackGamepadState isPointing now gp pt h
  · intro h
    exact trackGamepadState_empty_buttons isPointing now gp pt h

/-- C6 counterexample: the claim as frozen is false on the code.  After a
poll with one button the stored array has length 1; a following poll with
an empty button array leaves it at length 1 instead of resizing it to 0. -/
theorem C6_counterexample :
    ((_trackGamepadState true 200 ⟨[], [], "xr-standard"⟩
        ((_trackGamepadState true 100 ⟨[⟨true⟩], [], "xr-standard"⟩ []).1)).1).length = 1
    ∧ (⟨[], [], "xr-standard"⟩ : Gamepad).buttons.length = 0 := by
  refine ⟨?_, rfl⟩
  decide

/-- C6 witness: a concrete nonempty poll leaves the stored array at the
button count, and a concrete empty poll leaves the input array unchanged. -/
theorem C6_witness :
    ((_trackGamepadState true 100 ⟨[⟨true⟩], [], "xr-standard"⟩ []).1).length = 1
    ∧ (_trackGamepadState true 100 ⟨[], [], "xr-standard"⟩ [some 5]).1 = [some 5] :=
  ⟨(C6_tracked_length true 100 ⟨[⟨true⟩], [], "xr-standard"⟩ []).1 (by decide),
   (C6_tracked_length true 100 ⟨[], [], "xr-standard"⟩ [some 5]).2 (by decide)⟩

/-- C8 (amended): on the native session-event path every emitted action's
button is one of the two logical ids `BUTTON_TRIGGER`/`BUTTON_SQUEEZE`;
on the gamepad-polling path, however, the button field of a button action
is the raw gamepad button index (any `i < buttons.length`), which
coincides with a logical id only for indices 0 and 1, and the remaining
emissions are wheel actions that carry no button at all.  The amendment:
the claim as frozen asserts the `{TRIGGER, SQUEEZE}` range for the
gamepad path too; `C8_counterexample` emits button 2. -/
theorem C8_button_ids :
    (∀ eventType : String, ∃ ty : ActionType,
        _onSessionEvent eventType = RayAction.buttonAction ty BUTTON_TRIGGER
        ∨ _onSessionEvent eventType = RayAction.buttonAction ty BUTTON_SQUEEZE)
    ∧ (∀ (isPointing : Bool) (now : Nat) (gp : Gamepad) (pt : List (Option Nat))
        (a : RayAction), a ∈ (_trackGamepadState isPointing now gp pt).2 →
          (∃ ty i, a = RayAction.buttonAction ty i ∧ i < gp.buttons.length)
          ∨ ∃ dx dy : ℚ, a = RayAction.wheelAction dx dy 0) := by
  constructor
  · intro eventType
    unfold _onSessionEvent
    by_cases h : regexTestStart "squeeze" eventType = true
    · exact ⟨_, Or.inr (by rw [if_pos h])⟩
    · exact ⟨_, Or.inl (by rw [if_neg h])⟩
  · intro isPointing now gp pt a hmem
    rw [trackGamepadState_decomp] at hmem
    rw [show ((if gp.buttons.length = 0 then pt else newEntries now gp.buttons pt),
        collectEmits (fun i => buttonEmitsAt isPointing now pt gp.buttons i)
          (List.range gp.buttons.length)
          ++ collectEmits (wheelPairEmits isPointing gp.axes)
            (evenIndicesUpTo gp.axes.length)).2
      = collectEmits (fun i => buttonEmitsAt isPointing now pt gp.buttons i)
          (List.range gp.buttons.length)
          ++ collectEmits (wheelPairEmits isPointing gp.axes)
            (evenIndicesUpTo gp.axes.length) from rfl] at hmem
    rw [List.mem_append] at hmem
    rcases hmem with h | h
    · rw [mem_collectEmits] at h
      obtain ⟨j, hj, hmem⟩ := h
      rw [List.mem_range] at hj
      obtain ⟨ty, rfl⟩ := mem_transitionEmits hmem
      exact Or.inl ⟨ty, j, rfl, hj⟩
    · rw [mem_collectEmits] at h
      obtain ⟨j, _, hmem⟩ := h
      rw [mem_wheelPairEmits hmem]
      exact Or.inr ⟨_, _, rfl⟩

/-- C8 counterexample: the claim as frozen is false on the code.  On a
three-button xr-standard gamepad, pressing button 2 with pointing enabled
emits an action whose button field is 2, which is neither
`BUTTON_TRIGGER` (0) nor `BUTTON_SQUEEZE` (1). -/
theorem C8_counterexample :
    (_trackGamepadState true 100 ⟨[⟨false⟩, ⟨false⟩, ⟨true⟩], [], "xr-standard"⟩ []).2
      = [RayAction.buttonAction ActionType.mousedown 2]
    ∧ (2 : Nat) ≠ BUTTON_TRIGGER ∧ (2 : Nat) ≠ BUTTON_SQUEEZE := by
  refine ⟨?_, by decide, by decide⟩
  decide

/-- C8 witness: the amended theorem applied to the six session event
names and to a concrete poll emission. -/
theorem C8_witness :
    (∃ ty : ActionType,
      _onSessionEvent "squeezestart" = RayAction.buttonAction ty BUTTON_TRIGGER
      ∨ _onSessionEvent "squeezestart" = RayAction.buttonAction ty BUTTON_SQUEEZE)
    ∧ ((∃ ty i, RayAction.buttonAction ActionType.mousedown 0
          = RayAction.buttonAction ty i
          ∧ i < (⟨[⟨true⟩], [], "xr-standard"⟩ : Gamepad).buttons.length)
        ∨ ∃ dx dy : ℚ, RayAction.buttonAction ActionType.mousedown 0
          = RayAction.wheelAction dx dy 0) :=
  ⟨C8_button_ids.1 "squeezestart",
   C8_button_ids.2 true 100 ⟨[⟨true⟩], [], "xr-standard"⟩ []
     (RayAction.buttonAction ActionType.mousedown 0) (by decide)⟩

theorem afterUpdate_std_subs_nil (xrSession : Option Nat) (st : SubState)
    (hst : st.subs = []) : (afterUpdateSessionEvents true xrSession st).subs = [] := by
  unfold afterUpdateSessionEvents
  split
  · cases hl : st.lastXrSession <;> simp [removeSessionListeners, hst, hl]
  · exact hst

theorem foldl_afterUpdate_std_subs_nil :
    ∀ (sessions : List (Option Nat)) (st : SubState), st.subs = [] →
      (sessions.foldl (fun acc s => afterUpdateSessionEvents true s acc) st).subs = [] := by
  intro sessions
  induction sessions with
  | nil =>
    intro st hst
    exact hst
  | cons s rest ih =>
    intro st hst
    exact ih (afterUpdateSessionEvents true s st) (afterUpdate_std_subs_nil s st hst)

/-- C3: while the device's gamepad is present and xr-standard-mapped, no
sequence of `afterUpdate` passes (with arbitrarily changing sessions)
ever leaves the six native session events subscribed on any session; and
each received session event is redispatched as exactly one action, with
type chosen by the name suffix (start→mousedown, end→mouseup, bare→click)
and button by the name prefix (squeeze→SQUEEZE, otherwise TRIGGER). -/
theorem C3_native_bridge_exclusion :
    (∀ gp : Gamepad, gp.mapping = "xr-standard" →
        ∀ sessions : List (Option Nat),
          (sessions.foldl
            (fun st s => afterUpdateSessionEvents (_isXrStandardGamepad (some gp)) s st)
            initSubState).subs = [])
    ∧ (_onSessionEvent "selectstart" = RayAction.buttonAction ActionType.mousedown BUTTON_TRIGGER
      ∧ _onSessionEvent "select" = RayAction.buttonAction ActionType.click BUTTON_TRIGGER
      ∧ _onSessionEvent "selectend" = RayAction.buttonAction ActionType.mouseup BUTTON_TRIGGER
      ∧ _onSessionEvent "squeezestart" = RayAction.buttonAction ActionType.mousedown BUTTON_SQUEEZE
      ∧ _onSessionEvent "squeeze" = RayAction.buttonAction ActionType.click BUTTON_SQUEEZE
      ∧ _onSessionEvent "squeezeend" = RayAction.buttonAction ActionType.mouseup BUTTON_SQUEEZE) := by
  constructor
  · intro gp hstd sessions
    have hstd' : _isXrStandardGamepad (some gp) = true := by
      simp [_isXrStandardGamepad, hstd]
    rw [hstd']
    exact foldl_afterUpdate_std_subs_nil sessions initSubState rfl
  · refine ⟨?_, ?_, ?_, ?_, ?_, ?_⟩ <;> decide

/-- C3 witness: a concrete xr-standard gamepad and a concrete sequence of
session changes end with no session-event listeners attached. -/
theorem C3_witness :
    (([some 1, none, some 2] : List (Option Nat)).foldl
      (fun st s => afterUpdateSessionEvents
        (_isXrStandardGamepad (some ⟨[⟨false⟩], [], "xr-standard"⟩)) s st)
      initSubState).subs = [] :=
  C3_native_bridge_exclusion.1 ⟨[⟨false⟩], [], "xr-standard"⟩ rfl [some 1, none, some 2]

/-- C5: a scene ray event from this facade dispatches exactly one
secondary xr event to the event's target — bubbling, tagged with this
facade as event source — according to the table TRIGGER:
mousedown→xrselectstart, mouseup→xrselectend, click→xrselect and
SQUEEZE: mousedown→xrsqueezestart, mouseup→xrsqueezeend,
click→xrsqueeze; every other (button, type) pair dispatches nothing. -/
theorem C5_secondary_dispatch (prevIntersection : Option Nat) (e : SceneRayEvent)
    (hs : e.sourceIsSelf = true) :
    (e.button = BUTTON_TRIGGER →
      (e.eventType = "mousedown" →
        (_onSceneRayEvent prevIntersection e).dispatched = [⟨"xrselectstart", true, true⟩])
      ∧ (e.eventType = "mouseup" →
        (_onSceneRayEvent prevIntersection e).dispatched = [⟨"xrselectend", true, true⟩])
      ∧ (e.eventType = "click" →
        (_onSceneRayEvent prevIntersection e).dispatched = [⟨"xrselect", true, true⟩]))
    ∧ (e.button = BUTTON_SQUEEZE →
      (e.eventType = "mousedown" →
        (_onSceneRayEvent prevIntersection e).dispatched = [⟨"xrsqueezestart", true, true⟩])
      ∧ (e.eventType = "mouseup" →
        (_onSceneRayEvent prevIntersection e).dispatched = [⟨"xrsqueezeend", true, true⟩])
      ∧ (e.eventType = "click" →
        (_onSceneRayEvent prevIntersection e).dispatched = [⟨"xrsqueeze", true, true⟩]))
    ∧ (¬ ((e.button = BUTTON_TRIGGER ∨ e.button = BUTTON_SQUEEZE)
          ∧ (e.eventType = "mousedown" ∨ e.eventType = "mouseup" ∨ e.eventType = "click")) →
        (_onSceneRayEvent prevIntersection e).dispatched = []) := by
  have hd : (_onSceneRayEvent prevIntersection e).dispatched
      = (match RAY_TARGET_EVENTS e.button e.eventType with
         | some n => [⟨n, true, true⟩]
         | none => []) := by
    simp [_onSceneRayEvent, hs]
  refine ⟨?_, ?_, ?_⟩
  · intro hb
    refine ⟨?_, ?_, ?_⟩ <;> intro ht <;> rw [hd] <;>
      simp [RAY_TARGET_EVENTS, hb, ht]
  · intro hb
    refine ⟨?_, ?_, ?_⟩ <;> intro ht <;> rw [hd] <;>
      simp [RAY_TARGET_EVENTS, hb, ht, BUTTON_TRIGGER, BUTTON_SQUEEZE]
  · intro h
    rw [hd]
    by_cases hb0 : e.button = BUTTON_TRIGGER
    · have ht : ¬ (e.eventType = "mousedown" ∨ e.eventType = "mouseup"
          ∨ e.eventType = "click") := fun hty => h ⟨Or.inl hb0, hty⟩
      push_neg at ht
      simp [RAY_TARGET_EVENTS, hb0, ht.1, ht.2.1, ht.2.2]
    · by_cases hb1 : e.button = BUTTON_SQUEEZE
      · have ht : ¬ (e.eventType = "mousedown" ∨ e.eventType = "mouseup"
            ∨ e.eventType = "click") := fun hty => h ⟨Or.inr hb1, hty⟩
        push_neg at ht
        simp [RAY_TARGET_EVENTS, hb0, hb1, ht.1, ht.2.1, ht.2.2]
      · simp [RAY_TARGET_EVENTS, hb0, hb1]

/-- C5 witness: a concrete trigger mousedown from this facade dispatches
exactly the bubbling `xrselectstart` event, and a concrete mouseover pair
outside the table dispatches nothing. -/
theorem C5_witness :
    (_onSceneRayEvent (some 7) ⟨true, "mousedown", 0, false, some 5⟩).dispatched
      = [⟨"xrselectstart", true, true⟩]
    ∧ (_onSceneRayEvent (some 7) ⟨true, "mouseover", 0, false, some 5⟩).dispatched = [] :=
  ⟨((C5_secondary_dispatch (some 7) ⟨true, "mousedown", 0, false, some 5⟩ rfl).1 rfl).1 rfl,
   (C5_secondary_dispatch (some 7) ⟨true, "mouseover", 0, false, some 5⟩ rfl).2.2
     (by intro h; exact absurd h.2 (by decide))⟩

/-- C7 (amended): when an offset reference space is available, the frame
update stores exactly the tracking query's results — in particular `null`
when the query cannot resolve a pose, and `null` grip pose when there is
no grip space — and raises no error (the update is a total function);
when no reference space is available the update skips pose resolution
entirely and every stored field keeps its previous value (so a pose that
was never resolved stays `null`).  The amendment: the claim as frozen
asserts that the unresolvable pose is `null` after the frame even in the
no-reference-space case, but the source then retains the previous,
possibly non-null, pose (`C7_counterexample`). -/
theorem C7_pose_resolution (st : DeviceState) (inp : XrFrameInput) :
    ((∃ r, inp.offsetReferenceSpace = some r) →
      (_onXrFrameState st inp).targetRayPose = inp.targetRayPoseResult
      ∧ (_onXrFrameState st inp).gripPose
        = (if inp.gripSpace then inp.gripPoseResult else none))
    ∧ (inp.offsetReferenceSpace = none → _onXrFrameState st inp = st) := by
  constructor
  · rintro ⟨r, hr⟩
    unfold _onXrFrameState
    rw [hr]
    exact ⟨rfl, rfl⟩
  · intro hr
    unfold _onXrFrameState
    rw [hr]

/-- C7 counterexample: the claim as frozen is false on the code.  A frame
resolves the target-ray pose to `⟨7⟩`; on the next frame no reference
space is available (so the tracking query cannot resolve anything), yet
the stored target-ray pose is still `⟨7⟩`, not `null`. -/
theorem C7_counterexample :
    (_onXrFrameState
        (_onXrFrameState ⟨none, none, none⟩ ⟨some 0, some ⟨7⟩, true, some ⟨8⟩⟩)
        ⟨none, none, false, none⟩).targetRayPose = some ⟨7⟩
    ∧ (⟨none, none, false, none⟩ : XrFrameInput).offsetReferenceSpace = none :=
  ⟨rfl, rfl⟩

/-- C7 witness: with a reference space present and both pose queries
unresolvable the stored poses become `null`; with no reference space the
state is returned untouched. -/
theorem C7_witness :
    (_onXrFrameState ⟨some ⟨3⟩, some ⟨4⟩, some 9⟩ ⟨some 0, none, true, none⟩).targetRayPose = none
    ∧ (_onXrFrameState ⟨some ⟨3⟩, some ⟨4⟩, some 9⟩ ⟨some 0, none, true, none⟩).gripPose = none
    ∧ _onXrFrameState ⟨some ⟨3⟩, some ⟨4⟩, some 9⟩ ⟨none, none, false, none⟩
        = ⟨some ⟨3⟩, some ⟨4⟩, some 9⟩ := by
  have h := C7_pose_resolution (⟨some ⟨3⟩, some ⟨4⟩, some 9⟩ : DeviceState)
    (⟨some 0, none, true, none⟩ : XrFrameInput)
  have h2 := C7_pose_resolution (⟨some ⟨3⟩, some ⟨4⟩, some 9⟩ : DeviceState)
    (⟨none, none, false, none⟩ : XrFrameInput)
  refine ⟨(h.1 ⟨0, rfl⟩).1, ?_, h2.2 rfl⟩
  have hg := (h.1 ⟨0, rfl⟩).2
  simpa using hg

/-- C9: the stored `rayIntersection` is never touched by per-frame
processing (the frame update returns it unchanged for every input,
including frames with no reference space or unresolvable poses); it
changes only on a scene ray event whose source is this facade, becoming
that event's intersection, while events from any other source leave it
unchanged. -/
theorem C9_intersection_stability :
    (∀ (st : DeviceState) (inp : XrFrameInput),
        (_onXrFrameState st inp).rayIntersection = st.rayIntersection)
    ∧ (∀ (prevIntersection : Option Nat) (e : SceneRayEvent),
        (e.sourceIsSelf = true →
          (_onSceneRayEvent prevIntersection e).rayIntersection = e.intersection)
        ∧ (e.sourceIsSelf = false →
          (_onSceneRayEvent prevIntersection e).rayIntersection = prevIntersection)) := by
  constructor
  · intro st inp
    unfold _onXrFrameState
    cases h : inp.offsetReferenceSpace <;> rfl
  · intro prevIntersection e
    constructor <;> intro h <;> simp [_onSceneRayEvent, h]

/-- C9 witness: a concrete frame update leaves the intersection at
`some 3`; a concrete self-sourced scene event replaces it with `some 8`;
a concrete foreign-sourced event leaves it at `some 3`. -/
theorem C9_witness :
    (_onXrFrameState ⟨none, none, some 3⟩ ⟨some 0, some ⟨1⟩, true, some ⟨2⟩⟩).rayIntersection
      = some 3
    ∧ (_onSceneRayEvent (some 3) ⟨true, "mousemove", 0, false, some 8⟩).rayIntersection = some 8
    ∧ (_onSceneRayEvent (some 3) ⟨false, "click", 0, false, some 8⟩).rayIntersection = some 3 :=
  ⟨C9_intersection_stability.1 ⟨none, none, some 3⟩ ⟨some 0, some ⟨1⟩, true, some ⟨2⟩⟩,
   (C9_intersection_stability.2 (some 3) ⟨true, "mousemove", 0, false, some 8⟩).1 rfl,
   (C9_intersection_stability.2 (some 3) ⟨false, "click", 0, false, some 8⟩).2 rfl⟩

end TroikaXr
